import Mathlib

/-!
Verification of the migration-report engine (`migration_report.py` and its
test files) against its specification, via a shallow embedding in Lean 4.

The embedding models:
- the per-experiment worker `get_experiment_file_stats` (source lines 19-76),
  with the remote XNAT server abstracted as functions from request paths to
  `Except`-style responses (a raised exception is `Except.error`, a returned
  HTTP response carries an `ok` flag that the source checks with `assert`);
- the orchestrator's result-collection loop and report filtering in `main`
  (source lines 119-158), including the literal tuple unpacking at line 128;
- the session enumerator in `main` (source lines 105-114), with query rows
  carrying exactly the projected columns;
- functions of the repository that are absent from the sources at hand but
  exercised by its tests (the scoped `session_exists`, `estimate_session_size`,
  `archive_path_exists`), modelled from the specification as marked.

Python `dict` results are modelled as records with `Option` fields (a key
absent from the dict is `none`); exceptions are `Except.error` carrying the
exception message.
-/

/-- One entry of a `resources` listing, as consumed by
`res.get('file_count', 0)` / `res.get('file_size', 0)`: the two aggregate
fields may be absent (`none`), in which case the source defaults them to 0. -/
structure Resource where
  file_count : Option Nat
  file_size : Option Nat
deriving DecidableEq, Repr

/-- One entry of the scans listing: the source reads `scan['URI']` and
`scan['ID']`. -/
structure Scan where
  ID : String
  URI : String
deriving DecidableEq, Repr

/-- An HTTP response as seen by the worker: `ok` is `response.ok`, which the
source checks with `assert`; `payload` is the parsed
`response.json()['ResultsSet']['Result']` array. -/
structure Response (α : Type) where
  ok : Bool
  payload : α
deriving DecidableEq, Repr

/-- The remote XNAT system reached through one `pyxnat.Interface`: a request
for a scans path or a resources path either raises (`Except.error` with the
exception message) or returns a `Response`. -/
structure XnatServer where
  scansOf : String → Except String (Response (List Scan))
  resourcesOf : String → Except String (Response (List Resource))

/-- The Python dict returned by `get_experiment_file_stats`: on success
`num_files` and `total_size_bytes` are `some` and `error` is absent (`none`);
on failure the numeric fields are `None` and `error` holds the message. -/
structure ReportRow where
  project_id : String
  subject_id : String
  experiment_id : String
  num_files : Option Nat
  total_size_bytes : Option Nat
  error : Option String
deriving DecidableEq, Repr

/-- The per-scan body of the worker's loop (source lines 40-52): fetch the
scan's resources, assert the response is ok (raising the assert message
otherwise), and add the resource-level `file_count` / `file_size` sums
(missing fields defaulting to 0) to the running totals. -/
def scanStep (srv : XnatServer) (experiment_id : String)
    (acc : Nat × Nat) (scan : Scan) : Except String (Nat × Nat) :=
  match srv.resourcesOf (scan.URI ++ "/resources") with
  | .error e => .error e
  | .ok resources_resp =>
    if resources_resp.ok then
      .ok (acc.1 + (resources_resp.payload.map
              (fun res => res.file_count.getD 0)).sum,
           acc.2 + (resources_resp.payload.map
              (fun res => res.file_size.getD 0)).sum)
    else
      .error ("Failed to get resources for scan " ++ scan.ID ++
        " in experiment " ++ experiment_id)

/-- The worker's `for scan in scans_list` loop (source lines 40-52), carrying
the pair of running totals; the first raised exception propagates. -/
def scansLoop (srv : XnatServer) (experiment_id : String)
    (acc : Nat × Nat) : List Scan → Except String (Nat × Nat)
  | [] => .ok acc
  | scan :: rest =>
    match scanStep srv experiment_id acc scan with
    | .error e => .error e
    | .ok acc2 => scansLoop srv experiment_id acc2 rest

/-- The body of the worker's `try` block (source lines 27-52): connect
(`conn` is the outcome of `Interface(config=...)`), list the experiment's
scans, assert the response is ok, then fold `scanStep` over the scan list.
The `pdb.set_trace()` left at source line 36 does not alter the data flow and
is not modelled. Any step may raise; the raised message propagates. -/
def workerScans (srv : XnatServer) (experiment_id : String) :
    Except String (Nat × Nat) :=
  match srv.scansOf ("/data/experiments/" ++ experiment_id ++ "/scans") with
  | .error e => .error e
  | .ok response =>
    if response.ok then
      scansLoop srv experiment_id (0, 0) response.payload
    else
      .error ("Failed to get scans for experiment " ++ experiment_id)

/-- The worker's body including the connection step: `Interface(config=...)`
itself may raise, in which case its exception propagates to the same
`except` clause. -/
def workerBody (conn : Except String XnatServer) (experiment_id : String) :
    Except String (Nat × Nat) :=
  match conn with
  | .error e => .error e
  | .ok srv => workerScans srv experiment_id

/-- `get_experiment_file_stats` (source lines 19-76): run the body; on success
return the success dict, and on any exception return the degraded dict with
the numeric fields `None` and `error` set to the exception message.  The
`finally` block only closes the connection (swallowing its own errors) and
has no effect on the returned value.  `subject_label` is accepted and unused,
as in the source. -/
def get_experiment_file_stats (conn : Except String XnatServer)
    (experiment_id project_id subject_id subject_label : String) : ReportRow :=
  match workerBody conn experiment_id with
  | .ok (n, s) =>
      { project_id := project_id, subject_id := subject_id,
        experiment_id := experiment_id,
        num_files := some n, total_size_bytes := some s, error := none }
  | .error e =>
      { project_id := project_id, subject_id := subject_id,
        experiment_id := experiment_id,
        num_files := none, total_size_bytes := none, error := some e }

/-- The keys of the Python dict behind a `ReportRow`: the five fields of the
success dict, plus `error` exactly when the failure path produced the row. -/
def reportRowKeys (r : ReportRow) : List String :=
  ["project_id", "subject_id", "experiment_id", "num_files",
   "total_size_bytes"] ++
    (match r.error with
     | some _ => ["error"]
     | none => [])

/-- All listings of the worker succeed on an open connection: the scans
request returns ok, and every scan's resources request returns ok. -/
def serverListingsOk (srv : XnatServer) (experiment_id : String) : Bool :=
  match srv.scansOf ("/data/experiments/" ++ experiment_id ++ "/scans") with
  | .error _ => false
  | .ok response =>
    response.ok && response.payload.all (fun scan =>
      match srv.resourcesOf (scan.URI ++ "/resources") with
      | .error _ => false
      | .ok r => r.ok)

/-- All listings of the worker succeed, starting from the connection step. -/
def listingsOk (conn : Except String XnatServer) (experiment_id : String) :
    Bool :=
  match conn with
  | .error _ => false
  | .ok srv => serverListingsOk srv experiment_id

/-- Direct double sum of the `file_count` fields over all resources of the
given scans, a missing field contributing 0. -/
def scansCount (srv : XnatServer) (scans : List Scan) : Nat :=
  (scans.map (fun scan =>
    match srv.resourcesOf (scan.URI ++ "/resources") with
    | .error _ => 0
    | .ok r => (r.payload.map (fun res => res.file_count.getD 0)).sum)).sum

/-- Direct double sum of the `file_size` fields over all resources of the
given scans, a missing field contributing 0. -/
def scansSize (srv : XnatServer) (scans : List Scan) : Nat :=
  (scans.map (fun scan =>
    match srv.resourcesOf (scan.URI ++ "/resources") with
    | .error _ => 0
    | .ok r => (r.payload.map (fun res => res.file_size.getD 0)).sum)).sum

/-- The total file count of an experiment read off the server data directly:
sum of `file_count` over all resources of all scans. -/
def serverFileCount (srv : XnatServer) (experiment_id : String) : Nat :=
  match srv.scansOf ("/data/experiments/" ++ experiment_id ++ "/scans") with
  | .error _ => 0
  | .ok response => scansCount srv response.payload

/-- Total file count lifted over the connection step. -/
def specFileCount (conn : Except String XnatServer) (experiment_id : String) :
    Nat :=
  match conn with
  | .error _ => 0
  | .ok srv => serverFileCount srv experiment_id

/-- The total file size of an experiment read off the server data directly:
sum of `file_size` over all resources of all scans. -/
def serverFileSize (srv : XnatServer) (experiment_id : String) : Nat :=
  match srv.scansOf ("/data/experiments/" ++ experiment_id ++ "/scans") with
  | .error _ => 0
  | .ok response => scansSize srv response.payload

/-- Total file size lifted over the connection step. -/
def specFileSize (conn : Except String XnatServer) (experiment_id : String) :
    Nat :=
  match conn with
  | .error _ => 0
  | .ok srv => serverFileSize srv experiment_id

/-- A Task Descriptor as built in `main` (source line 114):
`(experiment_id, project_id, subject_id, subject_label)`. -/
abbrev ExperimentTask := String × String × String × String

/-- The four components of a Task Descriptor as a Python tuple (the value
stored in the `futures` dict, source lines 123-124). -/
def taskFields (t : ExperimentTask) : List String :=
  [t.1, t.2.1, t.2.2.1, t.2.2.2]

/-- Python tuple unpacking `a, b, c = t`: succeeds exactly when `t` has three
components, and raises `ValueError` otherwise. -/
def unpack3 (fields : List String) : Except String (String × String × String) :=
  match fields with
  | [a, b, c] => .ok (a, b, c)
  | _ => .error "ValueError: too many values to unpack (expected 3)"

/-- The orchestrator's result-collection loop (source lines 126-136),
iterating over completed futures in completion order (the list order here).
Each iteration first evaluates `exp_id_current, _, _ = futures[future]`
(source line 128) — an unpacking of the stored 4-tuple into three names,
OUTSIDE the `try` block — and only then enters the `try` that appends the
task's result, or `None` if `future.result()` re-raises.  `outcome t` is what
`future.result()` does for task `t`. -/
def collectLoop (outcome : ExperimentTask → Except String ReportRow)
    (acc : List (Option ReportRow)) :
    List ExperimentTask → Except String (List (Option ReportRow))
  | [] => .ok acc
  | task :: rest =>
    match unpack3 (taskFields task) with
    | .error e => .error e
    | .ok _ =>
      match outcome task with
      | .ok r => collectLoop outcome (acc ++ [some r]) rest
      | .error _ => collectLoop outcome (acc ++ [none]) rest

/-- The whole collection phase of `main`: run `collectLoop` over the task
list starting from the empty `results` list. -/
def mainCollect (tasks : List ExperimentTask)
    (outcome : ExperimentTask → Except String ReportRow) :
    Except String (List (Option ReportRow)) :=
  collectLoop outcome [] tasks

/-- `successful_results` (source line 141): keep the entries that are not
`None` and whose dict has no `error` key; only these are turned into the
DataFrame that is written to the CSV report (source lines 143-156). -/
def successful_results (results : List (Option ReportRow)) : List ReportRow :=
  (results.filterMap id).filter (fun r => r.error.isNone)

/-- A row of the session-enumeration query result, as a Python dict from
column name to value.  Per the structured-query contract, a row carries
exactly the projected columns. -/
abbrev QueryRow := List (String × String)

/-- The columns projected by the enumeration query (source line 105):
`xnat:mrSessionData/PROJECT`, `xnat:mrSessionData/SUBJECT_ID`,
`xnat:mrSessionData/SESSION_ID`, keyed in rows by their lower-cased field
names. -/
def queryProjection : List String := ["project", "subject_id", "session_id"]

/-- Python `row[key]` on a query-row dict: the value when the key is present,
a `KeyError` otherwise. -/
def rowGet (row : QueryRow) (key : String) : Except String String :=
  match row.lookup key with
  | some v => .ok v
  | none => .error ("KeyError: " ++ key)

/-- The body of the enumeration loop (source lines 109-114): map one query
row to a Task Descriptor by reading `row['session_id']`, `row['project']`,
`row['subject_id']` and `row['subject_label']` in that order; a missing key
raises `KeyError`. -/
def enumRow (row : QueryRow) : Except String ExperimentTask :=
  match rowGet row "session_id" with
  | .error e => .error e
  | .ok experiment_id =>
    match rowGet row "project" with
    | .error e => .error e
    | .ok project_id =>
      match rowGet row "subject_id" with
      | .error e => .error e
      | .ok subject_id =>
        match rowGet row "subject_label" with
        | .error e => .error e
        | .ok subject_label =>
          .ok (experiment_id, project_id, subject_id, subject_label)

/-- The enumeration loop over the whole query table (source lines 109-114):
a `KeyError` on any row propagates and aborts the run. -/
def enumerate_sessions (acc : List ExperimentTask) :
    List QueryRow → Except String (List ExperimentTask)
  | [] => .ok acc
  | row :: rest =>
    match enumRow row with
    | .error e => .error e
    | .ok task => enumerate_sessions (acc ++ [task]) rest

/-- The parameter list of `get_experiment_file_stats` as defined in the
source (line 19). -/
def get_experiment_file_stats_params : List String :=
  ["xnat_interface_config_path", "experiment_id", "project_id", "subject_id",
   "subject_label"]

/-- The positional arguments of the call in
`test_get_experiment_file_stats.py` (line 15): two configuration paths — one
for each system — followed by the four identifiers. -/
def test_call_args : List String :=
  ["xnat_cfg", "xnat2_cfg", "CNC_Archive_E02462", "BASS",
   "CNC_Archive_S02250", "230814_BASSptp024"]

/-- A Python call with only positional arguments and no defaults binds
exactly when the argument count equals the parameter count; otherwise it
raises `TypeError`. -/
def python_call_ok (params args : List String) : Bool :=
  args.length == params.length

/-- Modelled from the spec: one subject of the scoped project as seen by the
scoped Existence Checker (spec 4.4 variant (a)), which is absent from the
sources at hand — `test_session_exist.py` calls `session_exists` with a
third `project` argument that the present two-parameter version does not
take.  Enumerating the subject's experiments either fails (the error is
caught, logged, and treated as "no sessions found for this subject") or
yields the experiments' labels. -/
structure ScopedSubject where
  subject_id : String
  experiments : Except String (List String)

/-- Modelled from the spec: the scoped project — the set of subjects the
checker enumerates. -/
structure ScopedProject where
  subjects : List ScopedSubject

/-- Modelled from the spec: the scoped Existence Checker (spec 4.4 (a)):
enumerate the project's subjects, then each subject's experiments,
short-circuiting true on the first case-sensitive exact label match; a
subject whose enumeration fails contributes no sessions; a project with no
subjects yields false, not an error. -/
def session_exists_scoped (proj : ScopedProject) (session_label : String) :
    Bool :=
  proj.subjects.any (fun s =>
    match s.experiments with
    | .error _ => false
    | .ok labels => labels.any (fun l => l == session_label))

/-- Modelled from the spec: one File handle reachable under a session's
scan/resource hierarchy, carrying its attribute mapping (spec 4.1); the Size
Estimator `estimate_session_size` is absent from the sources at hand — only
its caller `test_estimate_session_size.py` is present. -/
structure SessionFile where
  attrs : List (String × String)
deriving DecidableEq, Repr

/-- Modelled from the spec: the ordered list of known size-attribute key
variants probed for each file (spec 4.1). -/
def sizeKeyVariants : List String := ["Size", "size", "FileSize", "length", "bytes"]

/-- Modelled from the spec: the size of one file — the first present key
variant parsed as an integer; a missing key or parse failure yields 0 for
that file only. -/
def fileSizeOf (f : SessionFile) : Nat :=
  match sizeKeyVariants.findSome? (fun k => f.attrs.lookup k) with
  | none => 0
  | some v => v.toNat?.getD 0

/-- Modelled from the spec: `estimate_session_size` (spec 4.1).  Sequential
mode sums per-file sizes in traversal order.  Concurrent mode dispatches the
per-file fetches to a pool of `max_workers` workers and sums results as they
complete; `completion` is the completion order the pool happens to produce, a
permutation of the traversal order. -/
def estimate_session_size (files : List SessionFile) (use_threads : Bool)
    (max_workers : Nat) (completion : List SessionFile) : Nat :=
  if use_threads then (completion.map fileSizeOf).sum
  else (files.map fileSizeOf).sum

/-- Modelled from the spec: the convention-based archive path
`{base_dir}/INVESTIGATOR_{investigator_name}/{session_label}.tar.gz`
(spec 4.5); `archive_path_exists` is absent from the sources at hand. -/
def archivePath (base_dir investigator_name session_label : String) : String :=
  base_dir ++ "/INVESTIGATOR_" ++ investigator_name ++ "/" ++
    session_label ++ ".tar.gz"

/-- Modelled from the spec: `archive_path_exists` (spec 4.5) — a pure
filesystem existence test of the convention-based path, the filesystem
modelled as the list of existing paths. -/
def archive_path_exists (fs : List String)
    (base_dir investigator_name session_label : String) : Bool × String :=
  (fs.contains (archivePath base_dir investigator_name session_label),
   archivePath base_dir investigator_name session_label)

/-- A concrete two-scan experiment matching the spec's synthetic example:
scan 1 has a single resource with `file_count=3,file_size=1000`, scan 2 a
single resource with `file_count=5,file_size=2000`. -/
def exServer : XnatServer where
  scansOf := fun path =>
    if path == "/data/experiments/E1/scans" then
      .ok ⟨true, [⟨"1", "/data/experiments/E1/scans/1"⟩,
                  ⟨"2", "/data/experiments/E1/scans/2"⟩]⟩
    else .error "404"
  resourcesOf := fun path =>
    if path == "/data/experiments/E1/scans/1/resources" then
      .ok ⟨true, [⟨some 3, some 1000⟩]⟩
    else if path == "/data/experiments/E1/scans/2/resources" then
      .ok ⟨true, [⟨some 5, some 2000⟩]⟩
    else .error "404"

/-- A successfully opened connection to `exServer`. -/
def exConn : Except String XnatServer := .ok exServer

/-- A small synthetic file set for the Size Estimator: sizes 5, 7 (under two
different key variants) and one file with no size attribute at all. -/
def exFiles : List SessionFile :=
  [⟨[("size", "5")]⟩, ⟨[("FileSize", "7")]⟩, ⟨[("name", "x")]⟩]

/-- Helper: when every scan's resources request succeeds with an ok response,
the worker's scan loop returns the running totals plus the direct double
sums. -/
theorem scansLoop_ok (srv : XnatServer) (experiment_id : String)
    (scans : List Scan) :
    ∀ a b : Nat,
      scans.all (fun scan =>
        match srv.resourcesOf (scan.URI ++ "/resources") with
        | .error _ => false
        | .ok r => r.ok) = true →
      scansLoop srv experiment_id (a, b) scans =
        .ok (a + scansCount srv scans, b + scansSize srv scans) := by
  induction scans with
  | nil => intro a b _; simp [scansLoop, scansCount, scansSize]
  | cons scan rest ih =>
    intro a b h
    simp only [List.all_cons, Bool.and_eq_true] at h
    obtain ⟨h1, h2⟩ := h
    cases hres : srv.resourcesOf (scan.URI ++ "/resources") with
    | error e => simp only [hres] at h1; exact absurd h1 (by decide)
    | ok r =>
      simp only [hres] at h1
      have hstep : scanStep srv experiment_id (a, b) scan =
          .ok (a + (r.payload.map (fun res => res.file_count.getD 0)).sum,
               b + (r.payload.map (fun res => res.file_size.getD 0)).sum) := by
        unfold scanStep
        rw [hres]
        simp [h1]
      simp only [scansLoop, hstep]
      rw [ih _ _ h2]
      simp [scansCount, scansSize, hres, Nat.add_assoc]

/-- Claim C1: whenever any step of the worker's body raises, the worker
catches the exception and returns a degraded row whose `error` field is the
exception message and whose numeric fields are null; the exception is never
propagated (the result is an ordinary `ReportRow`, not a raised error). -/
theorem C1_worker_catches_exceptions (conn : Except String XnatServer)
    (experiment_id project_id subject_id subject_label e : String)
    (h : workerBody conn experiment_id = .error e) :
    get_experiment_file_stats conn experiment_id project_id subject_id
        subject_label =
      { project_id := project_id, subject_id := subject_id,
        experiment_id := experiment_id,
        num_files := none, total_size_bytes := none, error := some e } := by
  unfold get_experiment_file_stats
  rw [h]

/-- Witness for C1: a connection that fails to open makes the body raise, and
the worker returns the degraded row carrying that message. -/
theorem C1_witness :
    workerBody (.error "Connection refused") "E9" =
      .error "Connection refused" ∧
    get_experiment_file_stats (.error "Connection refused") "E9" "P9" "S9"
        "L9" =
      { project_id := "P9", subject_id := "S9", experiment_id := "E9",
        num_files := none, total_size_bytes := none,
        error := some "Connection refused" } :=
  ⟨rfl, C1_worker_catches_exceptions _ _ _ _ _ _ rfl⟩

/-- Claim C3: when the connection opens and every listing succeeds, the
worker returns the success row whose `num_files` and `total_size_bytes` are
the sums of the `file_count` and `file_size` fields over all resources of
all scans, a missing field contributing 0. -/
theorem C3_worker_aggregates_sums (conn : Except String XnatServer)
    (experiment_id project_id subject_id subject_label : String)
    (h : listingsOk conn experiment_id = true) :
    get_experiment_file_stats conn experiment_id project_id subject_id
        subject_label =
      { project_id := project_id, subject_id := subject_id,
        experiment_id := experiment_id,
        num_files := some (specFileCount conn experiment_id),
        total_size_bytes := some (specFileSize conn experiment_id),
        error := none } := by
  cases conn with
  | error e => simp [listingsOk] at h
  | ok srv =>
    simp only [listingsOk] at h
    unfold serverListingsOk at h
    cases hs : srv.scansOf ("/data/experiments/" ++ experiment_id ++ "/scans")
        with
    | error e => simp only [hs] at h; exact absurd h (by decide)
    | ok response =>
      simp only [hs, Bool.and_eq_true] at h
      obtain ⟨hok, hall⟩ := h
      have hbody : workerBody (.ok srv) experiment_id =
          .ok (scansCount srv response.payload,
               scansSize srv response.payload) := by
        simp only [workerBody]
        unfold workerScans
        rw [hs]
        have hloop := scansLoop_ok srv experiment_id response.payload 0 0 hall
        simp [hok]
        simpa using hloop
      unfold get_experiment_file_stats
      rw [hbody]
      simp only [specFileCount, specFileSize]
      unfold serverFileCount serverFileSize
      rw [hs]

/-- Witness for C3: the spec's synthetic experiment — two scans whose single
resources report `file_count=3,file_size=1000` and `file_count=5,
file_size=2000` — aggregates to `num_files=8`, `total_size_bytes=3000`. -/
theorem C3_witness :
    listingsOk exConn "E1" = true ∧
    get_experiment_file_stats exConn "E1" "P1" "S1" "L1" =
      { project_id := "P1", subject_id := "S1", experiment_id := "E1",
        num_files := some 8, total_size_bytes := some 3000,
        error := none } :=
  ⟨by decide, by
    have h := C3_worker_aggregates_sums exConn "E1" "P1" "S1" "L1" (by decide)
    rw [h]
    decide⟩

/-- Claim C10: on both the success path and the exception path, the worker's
returned row carries `project_id`, `subject_id` and `experiment_id` exactly
equal to the corresponding arguments. -/
theorem C10_worker_preserves_identity_fields
    (conn : Except String XnatServer)
    (experiment_id project_id subject_id subject_label : String) :
    (get_experiment_file_stats conn experiment_id project_id subject_id
        subject_label).project_id = project_id ∧
    (get_experiment_file_stats conn experiment_id project_id subject_id
        subject_label).subject_id = subject_id ∧
    (get_experiment_file_stats conn experiment_id project_id subject_id
        subject_label).experiment_id = experiment_id := by
  unfold get_experiment_file_stats
  cases workerBody conn experiment_id with
  | ok v => cases v; exact ⟨rfl, rfl, rfl⟩
  | error e => exact ⟨rfl, rfl, rfl⟩

/-- Claim C2 (code bug): the orchestrator's collection loop never completes
on a nonempty task list — the first completed future already hits
`exp_id_current, _, _ = futures[future]` (source line 128), which unpacks
the stored 4-tuple into three names and raises an uncaught `ValueError`
outside the `try`, aborting the run instead of collecting N results. -/
theorem C2_collect_loop_always_aborts (t : ExperimentTask)
    (rest : List ExperimentTask)
    (outcome : ExperimentTask → Except String ReportRow) :
    mainCollect (t :: rest) outcome =
      .error "ValueError: too many values to unpack (expected 3)" := by
  obtain ⟨a, b, c, d⟩ := t
  rfl

/-- Counterexample for C4: a failed row (error marker set, numeric fields
null) is not contained in what `main` writes — `successful_results` filters
it out before the DataFrame is built and saved. -/
theorem C4_counterexample_failed_row_dropped :
    (successful_results
        [some { project_id := "P1", subject_id := "S1", experiment_id := "E1",
                num_files := none, total_size_bytes := none,
                error := some "boom" }]).contains
      { project_id := "P1", subject_id := "S1", experiment_id := "E1",
        num_files := none, total_size_bytes := none,
        error := some "boom" } = false := by decide

/-- Claim C4 as amended: the written report consists of exactly the non-None
rows whose `error` field is absent; rows whose processing failed are
excluded from the written output. -/
theorem C4_amended_only_error_free_rows_written
    (results : List (Option ReportRow)) (r : ReportRow) :
    r ∈ successful_results results ↔ some r ∈ results ∧ r.error = none := by
  simp [successful_results, List.mem_filter, List.mem_filterMap,
    Option.isNone_iff_eq_none]

/-- Claim C5 (code bug): on a row carrying exactly the projected columns
(`project`, `subject_id`, `session_id`), the enumerator raises `KeyError:
subject_label` — the loop reads a column the query never requested — instead
of producing a Task Descriptor; and `subject_label` is indeed not among the
projected columns. -/
theorem C5_enumerator_fails_on_projected_row :
    enumerate_sessions []
        [[("project", "P1"), ("subject_id", "S1"), ("session_id", "E1")]] =
      .error "KeyError: subject_label" ∧
    queryProjection.contains "subject_label" = false :=
  ⟨rfl, by decide⟩

/-- Claim C6 (code bug): the worker defined in the source accepts a single
configuration path — the six-argument call of its own test (two configs, as
the spec's contract requires) does not bind — and the row it returns never
carries a cross-system existence flag. -/
theorem C6_worker_returns_no_existence_flag :
    python_call_ok get_experiment_file_stats_params test_call_args = false ∧
    ∀ (conn : Except String XnatServer)
      (experiment_id project_id subject_id subject_label : String),
      (reportRowKeys (get_experiment_file_stats conn experiment_id project_id
          subject_id subject_label)).contains "exists_on_xnat2" = false := by
  refine ⟨by decide,
    fun conn experiment_id project_id subject_id subject_label => ?_⟩
  unfold reportRowKeys
  cases h : (get_experiment_file_stats conn experiment_id project_id
      subject_id subject_label).error with
  | none => decide
  | some e =>
    show (["project_id", "subject_id", "experiment_id", "num_files",
      "total_size_bytes"] ++ ["error"]).contains "exists_on_xnat2" = false
    decide

/-- Helper: the per-subject test of the scoped Existence Checker succeeds
exactly when the subject's enumeration succeeded and contains the label. -/
theorem subject_match_iff (s : ScopedSubject) (session_label : String) :
    (match s.experiments with
     | .error _ => false
     | .ok labels => labels.any (fun l => l == session_label)) = true ↔
      ∃ labels, s.experiments = Except.ok labels ∧ session_label ∈ labels := by
  cases hs : s.experiments with
  | error e => simp
  | ok labels =>
    constructor
    · intro hm
      rw [List.any_eq_true] at hm
      obtain ⟨l, hl, he⟩ := hm
      rw [beq_iff_eq] at he
      subst he
      exact ⟨labels, rfl, hl⟩
    · rintro ⟨labels2, heq, hmem⟩
      injection heq with heq2
      subst heq2
      rw [List.any_eq_true]
      exact ⟨session_label, hmem, by simp⟩

/-- Claim C7: the scoped existence check returns true exactly when some
successfully enumerated subject of the scoped project has an experiment
whose label is (case-sensitively) equal to the session label, and it returns
false — not an error — when the project has no subjects. -/
theorem C7_scoped_existence_check (proj : ScopedProject)
    (session_label : String) :
    (session_exists_scoped proj session_label = true ↔
      ∃ s ∈ proj.subjects, ∃ labels, s.experiments = Except.ok labels ∧
        session_label ∈ labels) ∧
    (proj.subjects = [] → session_exists_scoped proj session_label = false) := by
  constructor
  · unfold session_exists_scoped
    rw [List.any_eq_true]
    constructor
    · rintro ⟨s, hs, hm⟩
      exact ⟨s, hs, (subject_match_iff s session_label).1 hm⟩
    · rintro ⟨s, hs, labels, hok, hmem⟩
      exact ⟨s, hs, (subject_match_iff s session_label).2 ⟨labels, hok, hmem⟩⟩
  · intro h
    unfold session_exists_scoped
    rw [h]
    rfl

/-- Witness for C7: a scoped project with zero subjects yields false, not an
error. -/
theorem C7_witness :
    session_exists_scoped ⟨[]⟩ "251007_QA" = false :=
  (C7_scoped_existence_check ⟨[]⟩ "251007_QA").2 rfl

/-- Claim C8: for a fixed file set, the concurrent mode of the Size
Estimator — summing per-file sizes in whatever completion order the pool
produces — returns exactly the sequential total, for every worker count. -/
theorem C8_estimator_modes_agree (files completion : List SessionFile)
    (max_workers : Nat) (h : completion.Perm files) :
    estimate_session_size files true max_workers completion =
      estimate_session_size files false max_workers completion := by
  unfold estimate_session_size
  simp only [if_true, Bool.false_eq_true, if_false]
  exact (h.map fileSizeOf).sum_eq

/-- Witness for C8: on the synthetic file set, the concurrent total over a
reversed completion order equals the sequential total (worker count 4). -/
theorem C8_witness :
    exFiles.reverse.Perm exFiles ∧
    estimate_session_size exFiles true 4 exFiles.reverse =
      estimate_session_size exFiles false 4 exFiles.reverse :=
  ⟨exFiles.reverse_perm, C8_estimator_modes_agree _ _ 4 exFiles.reverse_perm⟩

/-- Claim C9: the Archive Presence Checker returns the pair of the
deterministically constructed path
`{base_dir}/INVESTIGATOR_{investigator_name}/{session_label}.tar.gz` and a
boolean that is true exactly when that path exists on the filesystem; in
particular for investigator `Smith` and session `230101_ABC`. -/
theorem C9_archive_checker_contract (fs : List String)
    (base_dir investigator_name session_label : String) :
    (archive_path_exists fs base_dir investigator_name session_label).2 =
      base_dir ++ "/INVESTIGATOR_" ++ investigator_name ++ "/" ++
        session_label ++ ".tar.gz" ∧
    ((archive_path_exists fs base_dir investigator_name session_label).1 =
        true ↔
      (archive_path_exists fs base_dir investigator_name session_label).2
        ∈ fs) ∧
    archive_path_exists ["/b/INVESTIGATOR_Smith/230101_ABC.tar.gz"] "/b"
        "Smith" "230101_ABC" =
      (true, "/b/INVESTIGATOR_Smith/230101_ABC.tar.gz") ∧
    archive_path_exists [] "/b" "Smith" "230101_ABC" =
      (false, "/b/INVESTIGATOR_Smith/230101_ABC.tar.gz") := by
  refine ⟨rfl, ?_, by decide, by decide⟩
  simp [archive_path_exists, List.contains]
